import Mathlib

/-!
Verification development for the PrepWise real-time multi-modal session
analysis engine.  The Lean definitions below are a shallow embedding of the
Python source:

* `backend/app/services/speech_service.py` — `RealSpeechAnalyzer.analyze_speech_performance`
  and `SpeechAnalysisService.analyze_audio_chunk`;
* `backend/models/video/detection_utils.py` — `ActionDetector.detect_action`
  (temporal smoothing state machine) with `backend/models/video/config.py`;
* `backend/app/routers/analysis.py` — `analyze_speech_file` (chunk recording)
  and `generate_feedback_report` (report synthesis).

Python floats are modelled as `ℚ`, Python ints as `ℤ`/`ℕ`, Python strings as
`String` (the text handled by the code is ASCII, so `Char.toLower` matches
`str.lower`).  External collaborators (Whisper, ffmpeg, the Keras classifier,
MediaPipe) are parameters of the embedded functions, exactly at the boundary
where the Python code calls them.
-/

namespace PrepWise

/-- Python `str` whitespace (the characters `str.split`/`str.strip` treat as
separators). -/
def pyIsSpace (c : Char) : Bool :=
  c = ' ' || c = '\t' || c = '\n' || c = '\r' || c = '\x0b' || c = '\x0c'

/-- Python `str.split()` with no argument: split on runs of whitespace,
discarding empty tokens.  `acc` carries the current (reversed) token. -/
def splitWordsAux : List Char → List Char → List (List Char)
  | [], acc => if acc = [] then [] else [acc.reverse]
  | c :: cs, acc =>
    if pyIsSpace c then
      if acc = [] then splitWordsAux cs [] else acc.reverse :: splitWordsAux cs []
    else splitWordsAux cs (c :: acc)

/-- Python `s.split()` over the character list of a string. -/
def splitWords (l : List Char) : List (List Char) := splitWordsAux l []

/-- `len(s.split())` — the word count the analyzer derives from a transcript. -/
def wordCountStr (s : String) : ℕ := (splitWords s.data).length

/-- Python `s.strip()` on a character list: drop whitespace at both ends. -/
def stripList (l : List Char) : List Char :=
  ((l.dropWhile pyIsSpace).reverse.dropWhile pyIsSpace).reverse

/-- Python `s.strip()`. -/
def pyStrip (s : String) : String := ⟨stripList s.data⟩

/-- Python `s.lower()` (ASCII case folding, which is all the source text uses). -/
def pyLower (s : String) : String := ⟨s.data.map Char.toLower⟩

/-- Fuel-driven core of Python `text.count(sub)`: count non-overlapping
occurrences scanning left to right.  The fuel is the length of the scanned
text, which bounds the recursion (every call consumes at least one character
for the non-empty patterns the analyzer uses). -/
def countSubAux (sub : List Char) : ℕ → List Char → ℕ
  | 0, _ => 0
  | _, [] => 0
  | fuel + 1, c :: t =>
    if sub.isPrefixOf (c :: t) then 1 + countSubAux sub fuel ((c :: t).drop sub.length)
    else countSubAux sub fuel t

/-- Python `text.count(sub)` for the non-empty filler patterns. -/
def countSub (sub text : List Char) : ℕ := countSubAux sub text.length text

/-- Python `text_lower.count(filler)` at the string level. -/
def countOccur (filler text : String) : ℕ := countSub filler.data text.data

/-- The filler lexicon of `analyze_speech_performance` (source order). -/
def fillerWords : List String :=
  ["um", "uh", "er", "ah", "like", "you know", "i mean",
   "sort of", "kind of", "i think", "maybe", "well", "so"]

/-- Content component of the speech score (`content_score` in the source):
a step function of the word count, 0–60 points. -/
def speechContentScore (wc : ℕ) : ℤ :=
  if 60 ≤ wc then 60
  else if 40 ≤ wc then 50
  else if 25 ≤ wc then 40
  else if 15 ≤ wc then 30
  else max 10 (2 * (wc : ℤ))

/-- Rate component of the speech score (`rate_score` in the source), 10–25
points depending on the speaking rate band. -/
def speechRateScore (r : ℚ) : ℤ :=
  if 130 ≤ r ∧ r ≤ 170 then 25
  else if (110 ≤ r ∧ r < 130) ∨ (170 < r ∧ r ≤ 190) then 20
  else if (90 ≤ r ∧ r < 110) ∨ (190 < r ∧ r ≤ 210) then 15
  else 10

/-- The filler rate `filler_count / word_count` (0 when there are no words). -/
def fillerRateQ (fillerCount wc : ℕ) : ℚ :=
  if 0 < wc then (fillerCount : ℚ) / (wc : ℚ) else 0

/-- Filler penalty (`filler_penalty` in the source): tiered on the filler
rate, with the top tier `min(20, filler_count * 2)`. -/
def speechFillerPenalty (fillerCount wc : ℕ) : ℤ :=
  let rate := fillerRateQ fillerCount wc
  if rate ≤ 2 / 100 then 0
  else if rate ≤ 5 / 100 then 5
  else if rate ≤ 10 / 100 then 10
  else min 20 (2 * (fillerCount : ℤ))

/-- Result record of `RealSpeechAnalyzer.analyze_speech_performance`.
`detectedFillers` keeps `(filler, count)` pairs; the Python code formats the
same data as `"filler(count)"` display strings. -/
structure SpeechMetrics where
  transcription : String
  wordCount : ℕ
  speakingRate : ℚ
  fillerCount : ℕ
  fillerRate : ℚ
  fbUm : ℕ
  fbUh : ℕ
  fbLike : ℕ
  fbOther : ℕ
  detectedFillers : List (String × ℕ)
  finalScore : ℤ
  performanceLevel : String
  duration : ℚ
  contentPart : ℤ
  ratePart : ℤ
  clarityPart : ℤ
  penaltyPart : ℤ
  deriving Repr, DecidableEq

/-- Shallow embedding of `RealSpeechAnalyzer.analyze_speech_performance`
(`speech_service.py`).  Mirrors the source line by line: word split, filler
substring counting over the lowered text, the four score components, the
clamp `max(5, min(100, score))`, and the performance level thresholds. -/
def analyzeSpeechPerformance (transcription : String) (duration : ℚ) : SpeechMetrics :=
  let words := splitWords transcription.data
  let wc := words.length
  let speakingRate : ℚ := if 0 < duration then (wc : ℚ) / duration * 60 else 0
  let textLower := pyLower transcription
  let counts := fillerWords.map (fun f => (f, countOccur f textLower))
  let fillerCount := (counts.map Prod.snd).sum
  let detected := counts.filter (fun p => 0 < p.snd)
  let fbUm := countOccur "um" textLower
  let fbUh := countOccur "uh" textLower
  let fbLike := countOccur "like" textLower
  let fbOther := fillerCount - (fbUm + fbUh + fbLike)
  let fillerRate := fillerRateQ fillerCount wc
  let content := speechContentScore wc
  let rate := speechRateScore speakingRate
  let clarity : ℤ := if 0 < wc ∧ transcription ≠ "" then 15 else 0
  let penalty := speechFillerPenalty fillerCount wc
  let rawScore := content + rate + clarity - penalty
  let finalScore := max 5 (min 100 rawScore)
  let level :=
    if 80 ≤ finalScore then "Excellent"
    else if 65 ≤ finalScore then "Good"
    else if 50 ≤ finalScore then "Fair"
    else "Needs Improvement"
  { transcription := transcription
    wordCount := wc
    speakingRate := speakingRate
    fillerCount := fillerCount
    fillerRate := fillerRate
    fbUm := fbUm, fbUh := fbUh, fbLike := fbLike, fbOther := fbOther
    detectedFillers := detected
    finalScore := finalScore
    performanceLevel := level
    duration := duration
    contentPart := content, ratePart := rate
    clarityPart := clarity, penaltyPart := penalty }

/-- Python `l[-n:]`: the last `n` elements (all of them when `l` is shorter). -/
def takeLast {α : Type} (n : ℕ) (l : List α) : List α := l.drop (l.length - n)

/-- `np.argmax` over a probability vector: index of the first maximum
(`0` for the empty vector, which the detector never produces). -/
def argmaxAux : ℕ → ℕ → ℚ → List ℚ → ℕ
  | _, bi, _, [] => bi
  | i, bi, bv, y :: ys => if bv < y then argmaxAux (i + 1) i y ys else argmaxAux (i + 1) bi bv ys

/-- First index of the maximum of a rational vector, as `np.argmax` returns. -/
def argmaxIdx : List ℚ → ℕ
  | [] => 0
  | x :: xs => argmaxAux 1 0 x xs

/-- `len(np.unique(l)) == 1` for a non-empty list: all entries equal (we only
apply it to the non-empty 10-element window the source slices). -/
def allSame : List ℕ → Bool
  | [] => true
  | x :: xs => xs.all (· = x)

/-- The label set from `backend/models/video/config.py` — the module reassigns
`ACTIONS` at the bottom of the file, so this final value is the one the
detector imports. -/
def ACTIONS : List String :=
  ["Good Posture", "Nervous Expression", "Confident Expression", "Slouching"]

/-- `ACTIONS[c]` as the detector reads it. -/
def actionLabel (c : ℕ) : String := ACTIONS.getD c ""

/-- The constructor configuration of `ActionDetector.__init__`:
`sequence_length=30`, `threshold=0.7`. -/
structure DetConfig where
  seqLen : ℕ
  threshold : ℚ
  deriving Repr, DecidableEq

/-- The default `ActionDetector(model)` configuration from the source:
`sequence_length=30` and `threshold=0.7`. -/
def defaultDetConfig : DetConfig := { seqLen := 30, threshold := 7 / 10 }

/-- Mutable per-session state of `ActionDetector`: the feature window
`self.sequence`, the accepted-label sentence `self.sentence`, and the raw
prediction history `self.predictions`.  Feature vectors are opaque `List ℚ`
(they come from the external MediaPipe extractor). -/
structure DetState where
  sequence : List (List ℚ)
  sentence : List String
  predictions : List ℕ
  deriving Repr, DecidableEq

/-- `ActionDetector.reset` / the freshly constructed detector state. -/
def initDetState : DetState := { sequence := [], sentence := [], predictions := [] }

/-- The per-step prediction record the detector returns on window-full steps. -/
structure PredResult where
  probabilities : List ℚ
  predictedClass : ℕ
  confidence : ℚ
  action : String
  deriving Repr, DecidableEq

/-- De-duplicating append of `detect_action`: append the accepted label unless
it equals the last sentence entry. -/
def appendDedup (sentence : List String) (act : String) : List String :=
  match sentence.getLast? with
  | some last => if act ≠ last then sentence ++ [act] else sentence
  | none => sentence ++ [act]

/-- The sentence update of a window-full `detect_action` step: when at least
10 raw predictions are recorded, the last 10 are identical and the current
top probability strictly exceeds the threshold, append the predicted label
with de-duplication; then trim the sentence to its last 5 entries. -/
def stepSentence (cfg : DetConfig) (sentence : List String) (preds : List ℕ)
    (res : List ℚ) : List String :=
  let c := argmaxIdx res
  let sent1 :=
    if 10 ≤ preds.length ∧ allSame (takeLast 10 preds) = true ∧ cfg.threshold < res.getD c 0 then
      appendDedup sentence (actionLabel c)
    else sentence
  if 5 < sent1.length then takeLast 5 sent1 else sent1

/-- Shallow embedding of `ActionDetector.detect_action` (`detection_utils.py`).
`model` is the external classifier applied to the full feature window (the
optional z-score normalization of the window is part of this opaque
collaborator); `kp` is the keypoint vector extracted from the incoming frame.
On a window-full step the raw class is appended to `predictions` and the
sentence is updated by `stepSentence`. -/
def detectAction (cfg : DetConfig) (model : List (List ℚ) → List ℚ)
    (st : DetState) (kp : List ℚ) : DetState × Option PredResult :=
  let seq1 := takeLast cfg.seqLen (st.sequence ++ [kp])
  if seq1.length = cfg.seqLen then
    let res := model seq1
    let c := argmaxIdx res
    let preds := st.predictions ++ [c]
    (⟨seq1, stepSentence cfg st.sentence preds res, preds⟩,
     some ⟨res, c, res.getD c 0, actionLabel c⟩)
  else
    (⟨seq1, st.sentence, st.predictions⟩, none)

/-- The acceptance condition of the voting rule of `detect_action` at one
incoming frame: the window is full, at least 10 raw predictions are recorded
(including the current one), the 10 most recent are identical, and the
current top probability strictly exceeds the threshold. -/
def votingAccepts (cfg : DetConfig) (model : List (List ℚ) → List ℚ)
    (st : DetState) (kp : List ℚ) : Prop :=
  let seq1 := takeLast cfg.seqLen (st.sequence ++ [kp])
  let res := model seq1
  let c := argmaxIdx res
  let preds := st.predictions ++ [c]
  seq1.length = cfg.seqLen ∧ 10 ≤ preds.length ∧ allSame (takeLast 10 preds) = true ∧
    cfg.threshold < res.getD c 0

/-- Run the detector over a list of frames (keypoint vectors), threading the
session state. -/
def runDetect (cfg : DetConfig) (model : List (List ℚ) → List ℚ)
    (st : DetState) (frames : List (List ℚ)) : DetState :=
  frames.foldl (fun s kp => (detectAction cfg model s kp).1) st

/-- A constant classifier whose single class has probability 0.65: above the
0.6 the specification names, below the 0.7 the constructor defaults to. -/
def constModel65 : List (List ℚ) → List ℚ := fun _ => [13 / 20]

/-- A constant classifier whose single class has probability 0.8, above the
default threshold. -/
def constModel80 : List (List ℚ) → List ℚ := fun _ => [4 / 5]

/-- Python `int(q)` on a non-complex number: truncation toward zero. -/
def pyInt (q : ℚ) : ℤ := if 0 ≤ q then ⌊q⌋ else -⌊-q⌋

/-- Python `round(q)` to an integer: round half to even. -/
def pyRound (q : ℚ) : ℤ :=
  let f := ⌊q⌋
  let r := q - (f : ℚ)
  if r < 1 / 2 then f
  else if 1 / 2 < r then f + 1
  else if f % 2 = 0 then f else f + 1

/-- The twelve punctuation characters stripped from each token by
`_count_fillers`: period, comma, question mark, exclamation mark, semicolon,
colon, round and square brackets, double quote and single quote (code point
39). -/
def pyIsPunct (c : Char) : Bool :=
  c = '.' || c = ',' || c = '?' || c = '!' || c = ';' || c = ':' ||
  c = '(' || c = ')' || c = '[' || c = ']' || c = '"' || c = Char.ofNat 39

/-- Python token strip over the punctuation set of `_count_fillers`: drop
those characters at both ends. -/
def stripPunct (l : List Char) : List Char :=
  ((l.dropWhile pyIsPunct).reverse.dropWhile pyIsPunct).reverse

/-- Shallow embedding of `_count_fillers` (`analysis.py`): split the text,
strip punctuation from each token, lowercase, and tally exact matches of
"um", "uh", "like"; returns `(um, uh, like, total)`. -/
def countFillersRouter (text : String) : ℕ × ℕ × ℕ × ℕ :=
  let ws := (splitWords text.data).map (fun w => (stripPunct w).map Char.toLower)
  let um := (ws.filter (· = "um".data)).length
  let uh := (ws.filter (· = "uh".data)).length
  let like := (ws.filter (· = "like".data)).length
  (um, uh, like, um + uh + like)

/-- `_speaking_rate_label` (`analysis.py`) on a numeric rate. -/
def speakingRateLabel (r : ℚ) : String :=
  if r ≤ 110 then "Too slow" else if r ≤ 160 then "Good pace" else "Too fast"

/-- Outcome of the external Whisper transcription call inside
`transcribe_audio_data`: either it returns a text or it raises. -/
inductive TranscribeOutcome where
  | text (s : String)
  | raiseErr
  deriving Repr, DecidableEq

/-- `RealSpeechAnalyzer.transcribe_audio_data`: returns the stripped Whisper
text, the empty string when the model is missing, and — because the body is
wrapped in `try/except` returning `""` — also the empty string when the
transcribe step itself raises. -/
def transcribeAudioData (modelLoaded : Bool) (o : TranscribeOutcome) : String :=
  if modelLoaded then
    match o with
    | .text s => pyStrip s
    | .raiseErr => ""
  else ""

/-- The normalized per-chunk result dictionary of
`SpeechAnalysisService.analyze_audio_chunk`.  The real-analysis dictionary
has no `duration` key, which the router reads back as `0.0`. -/
structure ChunkResult where
  transcriptChunk : String
  fillerCount : ℕ
  fbUm : ℕ
  fbUh : ℕ
  fbLike : ℕ
  fbOther : ℕ
  volumeLevel : ℤ
  clarityScore : ℤ
  speakingRate : ℚ
  wordCount : ℕ
  fillerRate : ℚ
  finalScore : ℤ
  performanceLevel : String
  confidence : ℚ
  analysisType : String
  deriving Repr, DecidableEq

/-- The "No speech detected" result of `analyze_audio_chunk`: all counts 0,
sentinel performance level, confidence 1.0. -/
def noSpeechChunkResult : ChunkResult :=
  { transcriptChunk := ""
    fillerCount := 0, fbUm := 0, fbUh := 0, fbLike := 0, fbOther := 0
    volumeLevel := 0, clarityScore := 0, speakingRate := 0
    wordCount := 0, fillerRate := 0, finalScore := 0
    performanceLevel := "No speech"
    confidence := 1
    analysisType := "real_whisper_ai_no_speech" }

/-- The `_mock_analysis` fallback result of the speech service. -/
def mockChunkResult : ChunkResult :=
  { transcriptChunk := "Mock transcribed text (install whisper for real analysis)"
    fillerCount := 0, fbUm := 0, fbUh := 0, fbLike := 0, fbOther := 0
    volumeLevel := 75, clarityScore := 88, speakingRate := 150
    wordCount := 25, fillerRate := 0, finalScore := 75
    performanceLevel := "Mock Analysis"
    confidence := 1 / 2
    analysisType := "mock_fallback" }

/-- Shallow embedding of `SpeechAnalysisService.analyze_audio_chunk`.
`useReal` is `self.use_real_analysis` (with the analyzer present and its
Whisper model loaded), `outcome` is what the external Whisper call does,
`audioLen` is `len(audio_data)` (the duration estimate divides by
`sample_rate * 2`), and `bodyErr` models an exception raised inside the
analysis body, which the `except` clause converts to the mock result.  The
function is total: no path raises to the caller. -/
def analyzeAudioChunk (useReal : Bool) (outcome : TranscribeOutcome)
    (audioLen : ℕ) (bodyErr : Bool) : ChunkResult :=
  if bodyErr then mockChunkResult
  else if useReal then
    let transcription := transcribeAudioData true outcome
    if transcription ≠ "" ∧ 0 < (pyStrip transcription).length then
      let dur : ℚ := (audioLen : ℚ) / (16000 * 2)
      let a := analyzeSpeechPerformance transcription dur
      { transcriptChunk := transcription
        fillerCount := a.fillerCount
        fbUm := a.fbUm, fbUh := a.fbUh, fbLike := a.fbLike, fbOther := a.fbOther
        volumeLevel := 75, clarityScore := a.clarityPart, speakingRate := a.speakingRate
        wordCount := a.wordCount, fillerRate := a.fillerRate, finalScore := a.finalScore
        performanceLevel := a.performanceLevel
        confidence := 9 / 10
        analysisType := "real_whisper_ai" }
    else noSpeechChunkResult
  else mockChunkResult

/-- One recorded chunk in `session_summaries[sid]["chunks"]`. -/
structure Chunk where
  questionNumber : Option ℤ
  text : String
  words : ℕ
  duration : ℚ
  confidence : ℚ
  timestamp : String
  deriving Repr, DecidableEq

/-- Per-session accumulator `session_summaries[sid]` from `analysis.py`. -/
structure SessionSummary where
  chunks : List Chunk
  questions : List (ℤ × String)
  totalWords : ℕ
  totalDuration : ℚ
  fUm : ℕ
  fUh : ℕ
  fLike : ℕ
  rates : List ℚ
  clarities : List ℚ
  confidences : List ℚ
  deriving Repr, DecidableEq

/-- The defaultdict initial value of a session summary. -/
def emptySummary : SessionSummary :=
  { chunks := [], questions := [], totalWords := 0, totalDuration := 0
    fUm := 0, fUh := 0, fLike := 0, rates := [], clarities := [], confidences := [] }

/-- Association-list lookup for the module-level dictionaries. -/
def lookupA {α : Type} (k : String) (l : List (String × α)) : Option α :=
  (l.find? (fun p => p.fst = k)).map Prod.snd

/-- Association-list store/overwrite. -/
def storeA {α : Type} (k : String) (v : α) : List (String × α) → List (String × α)
  | [] => [(k, v)]
  | p :: ps => if p.fst = k then (k, v) :: ps else p :: storeA k v ps

/-- Integer-keyed association lookup (for the `questions` map). -/
def lookupQ {α : Type} (k : ℤ) (l : List (ℤ × α)) : Option α :=
  (l.find? (fun p => p.fst = k)).map Prod.snd

/-- Integer-keyed association store/overwrite. -/
def storeQ {α : Type} (k : ℤ) (v : α) : List (ℤ × α) → List (ℤ × α)
  | [] => [(k, v)]
  | p :: ps => if p.fst = k then (k, v) :: ps else p :: storeQ k v ps

/-- The module-level stores of `analysis.py`: `session_summaries`,
`posture_aggregate`, and the set of session ids present in
`analysis_results`. -/
structure Stores where
  summaries : List (String × SessionSummary)
  posture : List (String × List (String × ℕ))
  analysisSessions : List String
  deriving Repr, DecidableEq

/-- The minimal JSON response of `analyze_speech_file` that the claims are
about: the `ok` flag, the error kind on the degraded path, and the
`analysis` sub-object fields `filler_count`, `confidence`, `duration`. -/
structure SpeechResponse where
  ok : Bool
  errorKind : Option String
  fillerCount : ℕ
  confidence : ℚ
  duration : ℚ
  deriving Repr, DecidableEq

/-- Shallow embedding of the success tail of `analyze_speech_file`: normalize
the chunk analysis, re-count fillers from the transcript when the breakdown is
all zero, and append the chunk and running totals into the session summary. -/
def recordChunk (st : Stores) (sessionId : String) (qn : Option ℤ)
    (qtext : Option String) (ts : String) (analysis : ChunkResult)
    (durationUsed : ℚ) : SpeechResponse × Stores :=
  let transcriptText := pyStrip analysis.transcriptChunk
  let bd0 := (analysis.fbUm, analysis.fbUh, analysis.fbLike)
  let fc0 := analysis.fbUm + analysis.fbUh + analysis.fbLike
  let bd :=
    if fc0 = 0 ∧ transcriptText ≠ "" then
      let auto := countFillersRouter transcriptText
      (auto.1, auto.2.1, auto.2.2.1)
    else bd0
  let fillerCount := bd.1 + bd.2.1 + bd.2.2
  let confidence := if analysis.confidence = 0 then 9 / 10 else analysis.confidence
  let words := wordCountStr transcriptText
  let s := (lookupA sessionId st.summaries).getD emptySummary
  let questions :=
    match qn, qtext with
    | some n, some t => if t ≠ "" then storeQ n t s.questions else s.questions
    | _, _ => s.questions
  let chunk : Chunk :=
    { questionNumber := qn, text := transcriptText, words := words
      duration := durationUsed, confidence := confidence, timestamp := ts }
  let s1 : SessionSummary :=
    { chunks := s.chunks ++ [chunk]
      questions := questions
      totalWords := s.totalWords + words
      totalDuration := s.totalDuration + durationUsed
      fUm := s.fUm + bd.1, fUh := s.fUh + bd.2.1, fLike := s.fLike + bd.2.2
      rates := s.rates ++ [analysis.speakingRate]
      clarities := s.clarities ++ [(analysis.clarityScore : ℚ)]
      confidences := s.confidences ++ [confidence] }
  ({ ok := true, errorKind := none, fillerCount := fillerCount
     confidence := confidence, duration := durationUsed },
   { summaries := storeA sessionId s1 st.summaries
     posture := st.posture
     analysisSessions := st.analysisSessions ++ [sessionId] })

/-- Shallow embedding of the `/speech-analysis` handler `analyze_speech_file`
(`analysis.py`).  `decodeOk` is whether the external ffmpeg decode succeeds,
`computedDuration` is the duration read from the decoded wav header,
`outcome`/`audioLen`/`useReal`/`bodyErr` parameterize the chunk analysis
(applied to the decoded bytes on success and to the raw bytes on decode
failure), and `fallbackRaise` models the raw-bytes fallback analysis itself
raising, which yields the degraded `ffmpeg_decode_failed` JSON response with
confidence 0.0 and records nothing.  Every path returns a response: the
handler never raises to the caller. -/
def analyzeSpeechFile (st : Stores) (sessionId : String) (qn : Option ℤ)
    (qtext : Option String) (ts : String) (decodeOk : Bool)
    (computedDuration : ℚ) (outcome : TranscribeOutcome) (audioLen : ℕ)
    (useReal bodyErr fallbackRaise : Bool) : SpeechResponse × Stores :=
  if decodeOk then
    let cd := if 0 < computedDuration then computedDuration else 0
    recordChunk st sessionId qn qtext ts (analyzeAudioChunk useReal outcome audioLen bodyErr) cd
  else if fallbackRaise then
    ({ ok := false, errorKind := some "ffmpeg_decode_failed", fillerCount := 0
       confidence := 0, duration := 0 }, st)
  else
    recordChunk st sessionId qn qtext ts (analyzeAudioChunk useReal outcome audioLen bodyErr) 0

/-- One synthesized per-question transcript entry of the report. -/
structure TranscriptEntry where
  questionNumber : ℤ
  question : String
  response : String
  timestamp : String
  duration : ℚ
  confidence : ℚ
  deriving Repr, DecidableEq

/-- Grouping key of `generate_feedback_report`: Python
`int(ch.get("question_number") or 1)` maps both a missing number and the
falsy `0` to question 1. -/
def groupKey (c : Chunk) : ℤ :=
  match c.questionNumber with
  | some q => if q = 0 then 1 else q
  | none => 1

/-- Space-joined concatenation of the non-empty chunk texts of a group. -/
def groupText (items : List Chunk) : String :=
  String.intercalate " " ((items.filter (fun c => c.text ≠ "")).map (fun c => c.text))

/-- Summed per-chunk word counts of a group. -/
def groupWords (items : List Chunk) : ℕ := (items.map (fun c => c.words)).sum

/-- Summed per-chunk durations of a group. -/
def groupDuration (items : List Chunk) : ℚ := (items.map (fun c => c.duration)).sum

/-- The `ts.split("T")[-1][:8]` timestamp formatting of a transcript entry. -/
def fmtTs (ts : String) : String :=
  if ts = "" then "" else ((ts.splitOn "T").getLastD "").take 8

/-- Synthesis of one question group in `generate_feedback_report`: join the
texts, sum words (falling back to re-splitting the joined text when the sum
is zero, Python `sum(...) or len(text.split())`), sum durations, average the
confidences, and drop the entry when `words < 5 and duration < 1.0 and
len(text.strip()) < 12` (the ghost filter). -/
def synthGroup (questions : List (ℤ × String)) (qn : ℤ) (items : List Chunk) :
    Option TranscriptEntry :=
  let text := groupText items
  let words := if groupWords items = 0 then wordCountStr text else groupWords items
  let dur := groupDuration items
  let conf := ((items.map (fun c => c.confidence)).sum) / (max 1 items.length : ℚ)
  let ts := match items.head? with | some c => c.timestamp | none => ""
  if words < 5 ∧ dur < 1 ∧ (pyStrip text).length < 12 then none
  else
    some { questionNumber := qn
           question := (lookupQ qn questions).getD ("Response to Question " ++ toString qn)
           response := text
           timestamp := fmtTs ts
           duration := dur
           confidence := conf }

/-- Ascending insertion into a sorted integer list. -/
def insertSorted (x : ℤ) : List ℤ → List ℤ
  | [] => [x]
  | y :: ys => if x ≤ y then x :: y :: ys else y :: insertSorted x ys

/-- Ascending insertion sort, modelling Python `sorted(by_q.keys())`. -/
def sortInts (l : List ℤ) : List ℤ := l.foldr insertSorted []

/-- The grouped, ghost-filtered transcript list of the report: group the
chunks by question key in ascending key order (arrival order within a group)
and synthesize each group. -/
def buildTranscript (s : SessionSummary) : List TranscriptEntry :=
  let keys := sortInts (s.chunks.map groupKey).dedup
  keys.filterMap (fun q => synthGroup s.questions q (s.chunks.filter (fun c => groupKey c = q)))

/-- Python `sum(l)/len(l) if l else d` — the averaging used for rates,
clarities and confidences. -/
def avgOrDefault (l : List ℚ) (d : ℚ) : ℚ :=
  if l = [] then d else l.sum / (l.length : ℚ)

/-- The aggregate fields of the report payload the claims are about
(`per_question_feedback` carries only presentation text and external
LLM output, so it is not modelled). -/
structure Report where
  overallScore : ℤ
  speechScore : ℤ
  speakingPace : String
  clarity : ℤ
  fUm : ℕ
  fUh : ℕ
  fLike : ℕ
  postureScore : ℤ
  responseTimeScore : ℤ
  confidenceScore : ℤ
  contentScore : ℤ
  transcript : List TranscriptEntry
  totalWords : ℕ
  postureDistribution : List (String × ℕ)
  deriving Repr, DecidableEq

/-- The fallback posture distribution used when no live tally exists. -/
def placeholderPosture : List (String × ℕ) :=
  [("Good Posture", 3), ("Confident Expression", 2), ("Neutral", 1), ("Slouching", 1)]

/-- The aggregate-score computation of `generate_feedback_report` on a session
summary snapshot and posture tally.  `speech_score` is Python
`int(min(100, max(0, (avg_clarity or 70))))`, `body_language_score` is the
constant 78 (the source comment announces a recalculation from posture data
that never happens), `overall_score` is `int((speech + body) / 2)`
(truncation), `response_time_score` maps the pace label of the average rate
to 80/40/60, and `confidence_score` is `int(round(avg_conf * 100))`. -/
def computeReport (s : SessionSummary) (posture : List (String × ℕ)) : Report :=
  let avgRate := avgOrDefault s.rates 0
  let avgClarity := avgOrDefault s.clarities 0
  let avgConf := avgOrDefault s.confidences (1 / 2)
  let speechScore := pyInt (min 100 (max 0 (if avgClarity = 0 then 70 else avgClarity)))
  let bodyScore : ℤ := 78
  let overall := pyInt (((speechScore : ℚ) + (bodyScore : ℚ)) / 2)
  let label := speakingRateLabel avgRate
  let rtScore : ℤ := if label = "Good pace" then 80 else if label = "Too slow" then 40 else 60
  { overallScore := overall
    speechScore := speechScore
    speakingPace := label
    clarity := pyInt avgClarity
    fUm := s.fUm, fUh := s.fUh, fLike := s.fLike
    postureScore := bodyScore
    responseTimeScore := rtScore
    confidenceScore := pyRound (avgConf * 100)
    contentScore := 70
    transcript := buildTranscript s
    totalWords := s.totalWords
    postureDistribution := if posture = [] then placeholderPosture else posture }

/-- Shallow embedding of the `/report/{session_id}` handler
`generate_feedback_report`: a 404 (`Except.error`) when neither a summary nor
any analysis record exists for the session, otherwise the synthesized report.
The handler only reads the module stores (lookups use `.get`, never the
defaultdict item access), so the returned store state is the input state. -/
def generateFeedbackReport (st : Stores) (sessionId : String) :
    Except Unit Report × Stores :=
  let s? := lookupA sessionId st.summaries
  let hasAnalyses := st.analysisSessions.contains sessionId
  if s?.isNone ∧ ¬hasAnalyses then (.error (), st)
  else
    let s := s?.getD emptySummary
    let posture := (lookupA sessionId st.posture).getD []
    (.ok (computeReport s posture), st)

/-- The specification's ghost-filter example group: words 3, duration 0.4,
text "ok yeah". -/
def ghostChunk3 : Chunk :=
  { questionNumber := some 1, text := "ok yeah", words := 3, duration := 2 / 5,
    confidence := 1, timestamp := "" }

/-- The retained variant of the ghost-filter example: words 5, same duration
and text. -/
def ghostChunk5 : Chunk := { ghostChunk3 with words := 5 }

/-- Session summary with one recorded clarity sample 77, rate sample 120 and
confidence sample 1, used to exhibit the report score divergences. -/
def cxSummary77 : SessionSummary :=
  { chunks := [], questions := [], totalWords := 0, totalDuration := 0
    fUm := 0, fUh := 0, fLike := 0, rates := [120], clarities := [77], confidences := [1] }

/-- Session summary whose recorded clarity sample is 0. -/
def cxSummaryZeroClarity : SessionSummary := { cxSummary77 with clarities := [0] }

/-! ### Helper lemmas about the speech score components -/

theorem speechContentScore_ge (wc : ℕ) : 10 ≤ speechContentScore wc := by
  unfold speechContentScore
  split_ifs <;> norm_num

theorem speechContentScore_le (wc : ℕ) : speechContentScore wc ≤ 60 := by
  unfold speechContentScore
  split_ifs with h1 h2 h3 h4 <;> try norm_num
  omega

theorem speechRateScore_ge (r : ℚ) : 10 ≤ speechRateScore r := by
  unfold speechRateScore; split_ifs <;> norm_num

theorem speechRateScore_le (r : ℚ) : speechRateScore r ≤ 25 := by
  unfold speechRateScore; split_ifs <;> norm_num

theorem speechFillerPenalty_nonneg (fc wc : ℕ) : 0 ≤ speechFillerPenalty fc wc := by
  simp only [speechFillerPenalty]
  split_ifs <;> norm_num

theorem speechFillerPenalty_le (fc wc : ℕ) : speechFillerPenalty fc wc ≤ 20 := by
  simp only [speechFillerPenalty]
  split_ifs <;> norm_num

theorem speechFillerPenalty_zero_wc (fc : ℕ) : speechFillerPenalty fc 0 = 0 := by
  norm_num [speechFillerPenalty, fillerRateQ]

theorem analyze_wordCount (t : String) (d : ℚ) :
    (analyzeSpeechPerformance t d).wordCount = wordCountStr t := rfl

theorem analyze_contentPart (t : String) (d : ℚ) :
    (analyzeSpeechPerformance t d).contentPart = speechContentScore (wordCountStr t) := rfl

theorem analyze_ratePart (t : String) (d : ℚ) :
    (analyzeSpeechPerformance t d).ratePart =
      speechRateScore (analyzeSpeechPerformance t d).speakingRate := rfl

theorem analyze_clarityPart (t : String) (d : ℚ) :
    (analyzeSpeechPerformance t d).clarityPart =
      if 0 < wordCountStr t ∧ t ≠ "" then 15 else 0 := rfl

theorem analyze_penaltyPart (t : String) (d : ℚ) :
    (analyzeSpeechPerformance t d).penaltyPart =
      speechFillerPenalty (analyzeSpeechPerformance t d).fillerCount (wordCountStr t) := rfl

theorem analyze_finalScore (t : String) (d : ℚ) :
    (analyzeSpeechPerformance t d).finalScore =
      max 5 (min 100 ((analyzeSpeechPerformance t d).contentPart +
        (analyzeSpeechPerformance t d).ratePart +
        (analyzeSpeechPerformance t d).clarityPart -
        (analyzeSpeechPerformance t d).penaltyPart)) := rfl

theorem analyze_clarity_bounds (t : String) (d : ℚ) :
    0 ≤ (analyzeSpeechPerformance t d).clarityPart ∧
      (analyzeSpeechPerformance t d).clarityPart ≤ 15 := by
  rw [analyze_clarityPart]; split_ifs <;> norm_num

theorem ne_empty_of_pos_wordCount {t : String} (h : 0 < wordCountStr t) : t ≠ "" := by
  intro he
  subst he
  exact absurd h (by decide)

/-- C1: for every transcript string and every duration at least 0,
`analyze_speech_performance` returns a `final_score` in `[5, 100]`,
including for the empty transcript at duration 0 (see the witness). -/
theorem final_score_in_range (t : String) (d : ℚ) (hd : 0 ≤ d) :
    5 ≤ (analyzeSpeechPerformance t d).finalScore ∧
      (analyzeSpeechPerformance t d).finalScore ≤ 100 := by
  rw [analyze_finalScore]
  exact ⟨le_max_left _ _, max_le (by norm_num) (min_le_left _ _)⟩

/-- Witness for C1 at the zero-words, zero-duration corner. -/
theorem final_score_in_range_witness :
    5 ≤ (analyzeSpeechPerformance "" 0).finalScore ∧
      (analyzeSpeechPerformance "" 0).finalScore ≤ 100 :=
  final_score_in_range "" 0 (le_refl 0)

/-- C10: the unclamped sum `content + rate + clarity - penalty` already lies
in `[15, 100]` (content at least 10, rate at least 10, clarity 15 whenever
words exist, penalty at most 20 and 0 when no words), so the clamp
`max(5, min(100, score))` is the identity and the returned `final_score` is
always at least 15 — the lower clamp bound 5 is never attained. -/
theorem unclamped_score_range (t : String) (d : ℚ) (hd : 0 ≤ d) :
    15 ≤ (analyzeSpeechPerformance t d).contentPart + (analyzeSpeechPerformance t d).ratePart +
        (analyzeSpeechPerformance t d).clarityPart - (analyzeSpeechPerformance t d).penaltyPart ∧
    (analyzeSpeechPerformance t d).contentPart + (analyzeSpeechPerformance t d).ratePart +
        (analyzeSpeechPerformance t d).clarityPart - (analyzeSpeechPerformance t d).penaltyPart ≤ 100 ∧
    (analyzeSpeechPerformance t d).finalScore =
      (analyzeSpeechPerformance t d).contentPart + (analyzeSpeechPerformance t d).ratePart +
        (analyzeSpeechPerformance t d).clarityPart - (analyzeSpeechPerformance t d).penaltyPart ∧
    15 ≤ (analyzeSpeechPerformance t d).finalScore := by
  have hcg := speechContentScore_ge (wordCountStr t)
  have hcl := speechContentScore_le (wordCountStr t)
  have hrg := speechRateScore_ge (analyzeSpeechPerformance t d).speakingRate
  have hrl := speechRateScore_le (analyzeSpeechPerformance t d).speakingRate
  have hpg := speechFillerPenalty_nonneg (analyzeSpeechPerformance t d).fillerCount (wordCountStr t)
  have hpl := speechFillerPenalty_le (analyzeSpeechPerformance t d).fillerCount (wordCountStr t)
  have hclar := analyze_clarity_bounds t d
  have h1 : 15 ≤ (analyzeSpeechPerformance t d).contentPart + (analyzeSpeechPerformance t d).ratePart +
      (analyzeSpeechPerformance t d).clarityPart - (analyzeSpeechPerformance t d).penaltyPart := by
    rw [analyze_contentPart, analyze_ratePart, analyze_clarityPart, analyze_penaltyPart]
    by_cases hwc : wordCountStr t = 0
    · rw [hwc]
      simp [speechFillerPenalty_zero_wc]
      linarith [speechContentScore_ge 0]
    · have hpos : 0 < wordCountStr t := Nat.pos_of_ne_zero hwc
      rw [if_pos ⟨hpos, ne_empty_of_pos_wordCount hpos⟩]
      linarith
  have h2 : (analyzeSpeechPerformance t d).contentPart + (analyzeSpeechPerformance t d).ratePart +
      (analyzeSpeechPerformance t d).clarityPart - (analyzeSpeechPerformance t d).penaltyPart ≤ 100 := by
    rw [analyze_contentPart, analyze_ratePart, analyze_penaltyPart]
    linarith [hclar.2]
  have h3 : (analyzeSpeechPerformance t d).finalScore =
      (analyzeSpeechPerformance t d).contentPart + (analyzeSpeechPerformance t d).ratePart +
        (analyzeSpeechPerformance t d).clarityPart - (analyzeSpeechPerformance t d).penaltyPart := by
    rw [analyze_finalScore, min_eq_right h2, max_eq_right (by linarith)]
  exact ⟨h1, h2, h3, h3 ▸ h1⟩

/-- Witness for C10 at a concrete input. -/
theorem unclamped_score_range_witness :
    15 ≤ (analyzeSpeechPerformance "" 0).contentPart + (analyzeSpeechPerformance "" 0).ratePart +
        (analyzeSpeechPerformance "" 0).clarityPart - (analyzeSpeechPerformance "" 0).penaltyPart ∧
    (analyzeSpeechPerformance "" 0).contentPart + (analyzeSpeechPerformance "" 0).ratePart +
        (analyzeSpeechPerformance "" 0).clarityPart - (analyzeSpeechPerformance "" 0).penaltyPart ≤ 100 ∧
    (analyzeSpeechPerformance "" 0).finalScore =
      (analyzeSpeechPerformance "" 0).contentPart + (analyzeSpeechPerformance "" 0).ratePart +
        (analyzeSpeechPerformance "" 0).clarityPart - (analyzeSpeechPerformance "" 0).penaltyPart ∧
    15 ≤ (analyzeSpeechPerformance "" 0).finalScore :=
  unclamped_score_range "" 0 (le_refl 0)

theorem fillerRateQ_mono (wc : ℕ) {fc1 fc2 : ℕ} (h : fc1 ≤ fc2) :
    fillerRateQ fc1 wc ≤ fillerRateQ fc2 wc := by
  unfold fillerRateQ
  split_ifs with hwc
  · have hw : (0 : ℚ) < wc := by exact_mod_cast hwc
    rw [div_le_div_iff hw hw]
    have : (fc1 : ℚ) ≤ fc2 := by exact_mod_cast h
    nlinarith
  · exact le_refl 0

/-- C2 (amended): for fixed `word_count` the filler penalty is monotonically
non-decreasing in `filler_count` as long as both filler counts lie on the
same side of the 0.10 filler-rate boundary; across that boundary the penalty
can decrease (see the counterexample). -/
theorem filler_penalty_monotone_within_band (wc fc1 fc2 : ℕ) (h12 : fc1 ≤ fc2)
    (hside : fillerRateQ fc2 wc ≤ 10 / 100 ∨ 10 / 100 < fillerRateQ fc1 wc) :
    speechFillerPenalty fc1 wc ≤ speechFillerPenalty fc2 wc := by
  have hmono := fillerRateQ_mono wc h12
  simp only [speechFillerPenalty]
  rcases hside with hs | hs
  · have h1 : fillerRateQ fc1 wc ≤ 10 / 100 := le_trans hmono hs
    split_ifs <;> (try push_neg at *) <;> linarith
  · have h2 : 10 / 100 < fillerRateQ fc2 wc := lt_of_lt_of_le hs hmono
    have hfc : (2 : ℤ) * fc1 ≤ 2 * fc2 := by
      have : (fc1 : ℤ) ≤ fc2 := by exact_mod_cast h12
      linarith
    split_ifs <;> (try push_neg at *) <;>
      first
        | exact min_le_min (le_refl 20) hfc
        | linarith

/-- Witness for the amended C2 on the same side of the boundary. -/
theorem filler_penalty_monotone_within_band_witness :
    speechFillerPenalty 1 100 ≤ speechFillerPenalty 3 100 :=
  filler_penalty_monotone_within_band 100 1 3 (by norm_num)
    (Or.inl (by norm_num [fillerRateQ]))

/-- Counterexample to C2 as stated: two transcripts with the same word count
10 for which the filler count rises from 1 to 2 while the penalty computed
by `analyze_speech_performance` falls from 10 to 4 (the rate crosses the
0.10 boundary into the `min(20, 2 * filler_count)` branch). -/
theorem filler_penalty_not_monotone_cx :
    (analyzeSpeechPerformance "um cat dog fox bat cat dog fox bat cat" 1).wordCount = 10 ∧
    (analyzeSpeechPerformance "um um cat dog fox bat cat dog fox bat" 1).wordCount = 10 ∧
    (analyzeSpeechPerformance "um cat dog fox bat cat dog fox bat cat" 1).fillerCount = 1 ∧
    (analyzeSpeechPerformance "um um cat dog fox bat cat dog fox bat" 1).fillerCount = 2 ∧
    (analyzeSpeechPerformance "um cat dog fox bat cat dog fox bat cat" 1).penaltyPart = 10 ∧
    (analyzeSpeechPerformance "um um cat dog fox bat cat dog fox bat" 1).penaltyPart = 4 := by
  have hw1 : wordCountStr "um cat dog fox bat cat dog fox bat cat" = 10 := by decide
  have hw2 : wordCountStr "um um cat dog fox bat cat dog fox bat" = 10 := by decide
  have hf1 : (analyzeSpeechPerformance "um cat dog fox bat cat dog fox bat cat" 1).fillerCount = 1 := by
    decide
  have hf2 : (analyzeSpeechPerformance "um um cat dog fox bat cat dog fox bat" 1).fillerCount = 2 := by
    decide
  refine ⟨by rw [analyze_wordCount, hw1], by rw [analyze_wordCount, hw2], hf1, hf2, ?_, ?_⟩
  · rw [analyze_penaltyPart, hf1, hw1]
    norm_num [speechFillerPenalty, fillerRateQ]
  · rw [analyze_penaltyPart, hf2, hw2]
    norm_num [speechFillerPenalty, fillerRateQ]

/-! ### Helper lemmas about the smoothing state machine -/

theorem takeLast_length_le {α : Type} (n : ℕ) (l : List α) : (takeLast n l).length ≤ n := by
  simp [takeLast]
  omega

theorem takeLast_eq_self {α : Type} {n : ℕ} {l : List α} (h : l.length ≤ n) :
    takeLast n l = l := by
  simp [takeLast, Nat.sub_eq_zero_of_le h]

theorem takeLast_length {α : Type} (n : ℕ) (l : List α) :
    (takeLast n l).length = min n l.length := by
  simp [takeLast]
  omega

theorem takeLast_replicate {α : Type} (n j : ℕ) (c : α) :
    takeLast n (List.replicate j c) = List.replicate (j - (j - n)) c := by
  simp [takeLast, List.drop_replicate]

theorem allSame_replicate (j : ℕ) (c : ℕ) : allSame (List.replicate j c) = true := by
  cases j with
  | zero => rfl
  | succ n =>
    simp only [List.replicate_succ, allSame, List.all_eq_true]
    intro x hx
    simp [List.eq_of_mem_replicate hx]

theorem appendDedup_nil (a : String) : appendDedup [] a = [a] := rfl

theorem appendDedup_singleton_self (a : String) : appendDedup [a] a = [a] := by
  simp [appendDedup]

theorem appendDedup_length_le (s : List String) (a : String) :
    (appendDedup s a).length ≤ s.length + 1 := by
  unfold appendDedup
  cases h : s.getLast? with
  | none => simp
  | some last =>
    show (if a ≠ last then s ++ [a] else s).length ≤ s.length + 1
    split_ifs <;> simp

theorem runDetect_nil (cfg : DetConfig) (model : List (List ℚ) → List ℚ) (st : DetState) :
    runDetect cfg model st [] = st := rfl

theorem runDetect_cons (cfg : DetConfig) (model : List (List ℚ) → List ℚ)
    (st : DetState) (kp : List ℚ) (fs : List (List ℚ)) :
    runDetect cfg model st (kp :: fs) = runDetect cfg model (detectAction cfg model st kp).1 fs := rfl

theorem runDetect_append (cfg : DetConfig) (model : List (List ℚ) → List ℚ)
    (st : DetState) (a b : List (List ℚ)) :
    runDetect cfg model st (a ++ b) = runDetect cfg model (runDetect cfg model st a) b :=
  List.foldl_append _ _ _ _

theorem detectAction_full_state (cfg : DetConfig) (model : List (List ℚ) → List ℚ)
    (st : DetState) (kp : List ℚ)
    (h : (takeLast cfg.seqLen (st.sequence ++ [kp])).length = cfg.seqLen) :
    (detectAction cfg model st kp).1 =
      ⟨takeLast cfg.seqLen (st.sequence ++ [kp]),
       stepSentence cfg st.sentence
         (st.predictions ++ [argmaxIdx (model (takeLast cfg.seqLen (st.sequence ++ [kp])))])
         (model (takeLast cfg.seqLen (st.sequence ++ [kp]))),
       st.predictions ++ [argmaxIdx (model (takeLast cfg.seqLen (st.sequence ++ [kp])))]⟩ := by
  simp only [detectAction]
  rw [if_pos h]

theorem detectAction_notFull_state (cfg : DetConfig) (model : List (List ℚ) → List ℚ)
    (st : DetState) (kp : List ℚ)
    (h : (takeLast cfg.seqLen (st.sequence ++ [kp])).length ≠ cfg.seqLen) :
    (detectAction cfg model st kp).1 =
      ⟨takeLast cfg.seqLen (st.sequence ++ [kp]), st.sentence, st.predictions⟩ := by
  simp only [detectAction]
  rw [if_neg h]

theorem detectAction_sequence_eq (cfg : DetConfig) (model : List (List ℚ) → List ℚ)
    (st : DetState) (kp : List ℚ) :
    (detectAction cfg model st kp).1.sequence = takeLast cfg.seqLen (st.sequence ++ [kp]) := by
  by_cases h : (takeLast cfg.seqLen (st.sequence ++ [kp])).length = cfg.seqLen
  · rw [detectAction_full_state cfg model st kp h]
  · rw [detectAction_notFull_state cfg model st kp h]

theorem stepSentence_length_le (cfg : DetConfig) (sentence : List String)
    (preds : List ℕ) (res : List ℚ) : (stepSentence cfg sentence preds res).length ≤ 5 := by
  simp only [stepSentence]
  split_ifs with h1 h2 h2 <;> first | exact takeLast_length_le 5 _ | omega

theorem stepSentence_unchanged (cfg : DetConfig) {sentence : List String}
    (preds : List ℕ) (res : List ℚ) (h5 : sentence.length ≤ 5)
    (hno : ¬ (10 ≤ preds.length ∧ allSame (takeLast 10 preds) = true ∧
        cfg.threshold < res.getD (argmaxIdx res) 0)) :
    stepSentence cfg sentence preds res = sentence := by
  simp only [stepSentence]
  rw [if_neg hno, if_neg (by omega)]

theorem detectAction_sentence_le (cfg : DetConfig) (model : List (List ℚ) → List ℚ)
    (st : DetState) (kp : List ℚ) (h5 : st.sentence.length ≤ 5) :
    (detectAction cfg model st kp).1.sentence.length ≤ 5 := by
  by_cases h : (takeLast cfg.seqLen (st.sequence ++ [kp])).length = cfg.seqLen
  · rw [detectAction_full_state cfg model st kp h]
    exact stepSentence_length_le _ _ _ _
  · rw [detectAction_notFull_state cfg model st kp h]
    exact h5

theorem detectAction_sentence_unchanged (cfg : DetConfig) (model : List (List ℚ) → List ℚ)
    (st : DetState) (kp : List ℚ) (h5 : st.sentence.length ≤ 5)
    (hno : ¬ votingAccepts cfg model st kp) :
    (detectAction cfg model st kp).1.sentence = st.sentence := by
  by_cases h : (takeLast cfg.seqLen (st.sequence ++ [kp])).length = cfg.seqLen
  · rw [detectAction_full_state cfg model st kp h]
    exact stepSentence_unchanged cfg _ _ h5 (fun hg => hno ⟨h, hg.1, hg.2.1, hg.2.2⟩)
  · rw [detectAction_notFull_state cfg model st kp h]

theorem detectAction_preds_le (cfg : DetConfig) (model : List (List ℚ) → List ℚ)
    (st : DetState) (kp : List ℚ) :
    (detectAction cfg model st kp).1.predictions.length ≤ st.predictions.length + 1 := by
  by_cases h : (takeLast cfg.seqLen (st.sequence ++ [kp])).length = cfg.seqLen
  · rw [detectAction_full_state cfg model st kp h]
    simp
  · rw [detectAction_notFull_state cfg model st kp h]
    simp

theorem runDetect_seq_le (cfg : DetConfig) (model : List (List ℚ) → List ℚ) :
    ∀ (frames : List (List ℚ)) (st : DetState), st.sequence.length ≤ cfg.seqLen →
      (runDetect cfg model st frames).sequence.length ≤ cfg.seqLen := by
  intro frames
  induction frames with
  | nil => intro st h; exact h
  | cons kp fs ih =>
    intro st h
    rw [runDetect_cons]
    exact ih _ (by rw [detectAction_sequence_eq]; exact takeLast_length_le _ _)

theorem runDetect_sentence_le (cfg : DetConfig) (model : List (List ℚ) → List ℚ) :
    ∀ (frames : List (List ℚ)) (st : DetState), st.sentence.length ≤ 5 →
      (runDetect cfg model st frames).sentence.length ≤ 5 := by
  intro frames
  induction frames with
  | nil => intro st h; exact h
  | cons kp fs ih =>
    intro st h
    rw [runDetect_cons]
    exact ih _ (detectAction_sentence_le cfg model st kp h)

theorem runDetect_sentence_stable (cfg : DetConfig) (model : List (List ℚ) → List ℚ)
    (hth : ∀ w : List (List ℚ), w.length = cfg.seqLen →
      (model w).getD (argmaxIdx (model w)) 0 ≤ cfg.threshold) :
    ∀ (frames : List (List ℚ)) (st : DetState), st.sentence.length ≤ 5 →
      (runDetect cfg model st frames).sentence = st.sentence := by
  intro frames
  induction frames with
  | nil => intro st h; rfl
  | cons kp fs ih =>
    intro st h
    have hstep : (detectAction cfg model st kp).1.sentence = st.sentence := by
      apply detectAction_sentence_unchanged cfg model st kp h
      intro hacc
      exact absurd hacc.2.2.2 (not_lt.mpr (hth _ hacc.1))
    rw [runDetect_cons, ih _ (by rw [hstep]; exact h), hstep]

theorem runDetect_fill (cfg : DetConfig) (model : List (List ℚ) → List ℚ) :
    ∀ (frames : List (List ℚ)) (st : DetState),
      st.sequence.length + frames.length < cfg.seqLen →
      runDetect cfg model st frames = ⟨st.sequence ++ frames, st.sentence, st.predictions⟩ := by
  intro frames
  induction frames with
  | nil => intro st h; simp [runDetect_nil]
  | cons kp fs ih =>
    intro st h
    have hlen : (st.sequence ++ [kp]).length < cfg.seqLen := by
      simp only [List.length_cons] at h
      simp only [List.length_append, List.length_singleton]
      omega
    have h1 : takeLast cfg.seqLen (st.sequence ++ [kp]) = st.sequence ++ [kp] :=
      takeLast_eq_self (le_of_lt hlen)
    have h2 : (detectAction cfg model st kp).1 =
        ⟨st.sequence ++ [kp], st.sentence, st.predictions⟩ := by
      rw [detectAction_notFull_state cfg model st kp (by rw [h1]; exact Nat.ne_of_lt hlen), h1]
    have h3 : (st.sequence ++ [kp]).length + fs.length < cfg.seqLen := by
      simp only [List.length_cons] at h
      simp only [List.length_append, List.length_singleton]
      omega
    rw [runDetect_cons, h2, ih _ h3]
    simp

theorem runDetect_preds_replicate (model : List (List ℚ) → List ℚ) (c : ℕ)
    (hm : ∀ w : List (List ℚ), w.length = 30 → argmaxIdx (model w) = c) :
    ∀ (frames : List (List ℚ)) (st : DetState) (k : ℕ),
      (st.sequence.length = 29 ∨ st.sequence.length = 30) →
      st.predictions = List.replicate k c →
      (runDetect defaultDetConfig model st frames).predictions =
        List.replicate (k + frames.length) c := by
  intro frames
  induction frames with
  | nil => intro st k hseq hpred; simpa using hpred
  | cons kp fs ih =>
    intro st k hseq hpred
    have hl : (st.sequence ++ [kp]).length = st.sequence.length + 1 := by simp
    have h30 : (takeLast defaultDetConfig.seqLen (st.sequence ++ [kp])).length =
        defaultDetConfig.seqLen := by
      rcases hseq with h | h <;> rw [takeLast_length, hl, h] <;> rfl
    have hstep := detectAction_full_state defaultDetConfig model st kp h30
    have hw : (takeLast defaultDetConfig.seqLen (st.sequence ++ [kp])).length = 30 := h30
    have hkk : k + (kp :: fs).length = (k + 1) + fs.length := by
      simp only [List.length_cons]
      omega
    rw [runDetect_cons, hstep, hkk]
    exact ih _ (k + 1) (Or.inr h30) (by rw [hpred, hm _ hw, List.replicate_succ'])

theorem runDetect_classify (model : List (List ℚ) → List ℚ) (c : ℕ)
    (hm : ∀ w : List (List ℚ), w.length = 30 →
      argmaxIdx (model w) = c ∧ defaultDetConfig.threshold < (model w).getD c 0) :
    ∀ (frames : List (List ℚ)) (st : DetState) (k : ℕ),
      (st.sequence.length = 29 ∨ st.sequence.length = 30) →
      st.predictions = List.replicate k c →
      st.sentence = (if 10 ≤ k then [actionLabel c] else []) →
      (runDetect defaultDetConfig model st frames).sentence =
        (if 10 ≤ k + frames.length then [actionLabel c] else []) := by
  intro frames
  induction frames with
  | nil => intro st k hseq hpred hsent; simpa using hsent
  | cons kp fs ih =>
    intro st k hseq hpred hsent
    have hl : (st.sequence ++ [kp]).length = st.sequence.length + 1 := by simp
    have h30 : (takeLast defaultDetConfig.seqLen (st.sequence ++ [kp])).length =
        defaultDetConfig.seqLen := by
      rcases hseq with h | h <;> rw [takeLast_length, hl, h] <;> rfl
    obtain ⟨hcc, hth⟩ := hm _ h30
    have hpreds1 : st.predictions ++
        [argmaxIdx (model (takeLast defaultDetConfig.seqLen (st.sequence ++ [kp])))] =
        List.replicate (k + 1) c := by
      rw [hpred, hcc, List.replicate_succ']
    have hsent1 : stepSentence defaultDetConfig st.sentence
        (st.predictions ++
          [argmaxIdx (model (takeLast defaultDetConfig.seqLen (st.sequence ++ [kp])))])
        (model (takeLast defaultDetConfig.seqLen (st.sequence ++ [kp]))) =
        (if 10 ≤ k + 1 then [actionLabel c] else []) := by
      rw [hpreds1]
      simp only [stepSentence, hcc]
      by_cases h10 : 10 ≤ k + 1
      · have hgate : 10 ≤ (List.replicate (k + 1) c).length ∧
            allSame (takeLast 10 (List.replicate (k + 1) c)) = true ∧
            defaultDetConfig.threshold <
              (model (takeLast defaultDetConfig.seqLen (st.sequence ++ [kp]))).getD c 0 :=
          ⟨by simpa using h10, by rw [takeLast_replicate]; exact allSame_replicate _ _, hth⟩
        rw [if_pos hgate, hsent, if_pos h10]
        by_cases hk : 10 ≤ k
        · rw [if_pos hk, appendDedup_singleton_self]
          simp
        · rw [if_neg hk, appendDedup_nil]
          simp
      · have hng : ¬ (10 ≤ (List.replicate (k + 1) c).length ∧
            allSame (takeLast 10 (List.replicate (k + 1) c)) = true ∧
            defaultDetConfig.threshold <
              (model (takeLast defaultDetConfig.seqLen (st.sequence ++ [kp]))).getD c 0) :=
          fun hg => h10 (by simpa using hg.1)
        have hk : ¬ 10 ≤ k := by omega
        rw [if_neg hng, hsent, if_neg hk, if_neg h10]
        simp
    have hkk : k + (kp :: fs).length = (k + 1) + fs.length := by
      simp only [List.length_cons]
      omega
    rw [runDetect_cons, detectAction_full_state defaultDetConfig model st kp h30, hkk]
    exact ih _ (k + 1) (Or.inr h30) hpreds1 hsent1

/-- C3 (amended): the detector's default confidence threshold is 0.7, not
0.6; the sentence changes only when the voting rule accepts (window full, at
least 10 raw predictions recorded, last 10 identical, current top probability
strictly above the threshold); in particular no stabilized label is ever
emitted while fewer than 10 raw predictions are recorded. -/
theorem detector_gating_amended :
    defaultDetConfig.threshold = 7 / 10 ∧
    (∀ (model : List (List ℚ) → List ℚ) (st : DetState) (kp : List ℚ),
      st.sentence.length ≤ 5 → ¬ votingAccepts defaultDetConfig model st kp →
      (detectAction defaultDetConfig model st kp).1.sentence = st.sentence) ∧
    (∀ (model : List (List ℚ) → List ℚ) (st : DetState) (kp : List ℚ),
      st.sentence.length ≤ 5 →
      (detectAction defaultDetConfig model st kp).1.predictions.length < 10 →
      (detectAction defaultDetConfig model st kp).1.sentence = st.sentence) := by
  refine ⟨rfl, ?_, ?_⟩
  · intro model st kp h5 hno
    exact detectAction_sentence_unchanged _ model st kp h5 hno
  · intro model st kp h5 hlt
    apply detectAction_sentence_unchanged _ model st kp h5
    intro hacc
    have hfull := hacc.1
    rw [detectAction_full_state _ model st kp hfull] at hlt
    simp only [List.length_append, List.length_singleton] at hlt
    have h10 := hacc.2.1
    simp only [List.length_append, List.length_singleton] at h10
    omega

/-- Witness for the amended C3: on a fresh session a single frame leaves the
sentence unchanged (the window is not yet full, so the voting rule cannot
accept). -/
theorem detector_gating_amended_witness :
    (detectAction defaultDetConfig (fun _ => [1]) initDetState []).1.sentence =
      initDetState.sentence :=
  detector_gating_amended.2.1 (fun _ => [1]) initDetState [] (by simp [initDetState])
    (fun h => absurd h.1 (by decide))

/-- Counterexample to C3 as stated: with the default configuration a run of
39 frames on a constant single-class classifier with top probability 0.65
records 10 identical raw predictions whose confidence exceeds 0.6, yet no
stabilized label is emitted — the default threshold is 0.7, not 0.6. -/
theorem detector_threshold_cx :
    defaultDetConfig.threshold ≠ 3 / 5 ∧
    (runDetect defaultDetConfig constModel65 initDetState
      (List.replicate 39 [])).predictions = List.replicate 10 0 ∧
    allSame (List.replicate 10 0) = true ∧
    (3 : ℚ) / 5 < 13 / 20 ∧
    (runDetect defaultDetConfig constModel65 initDetState
      (List.replicate 39 [])).sentence = [] := by
  have hsplit : (List.replicate 39 ([] : List ℚ)) =
      List.replicate 29 [] ++ List.replicate 10 [] := by
    rw [← List.replicate_add]
  have hfill : runDetect defaultDetConfig constModel65 initDetState (List.replicate 29 []) =
      ⟨List.replicate 29 [], [], []⟩ := by
    have := runDetect_fill defaultDetConfig constModel65 (List.replicate 29 []) initDetState
      (by simp [initDetState, defaultDetConfig])
    simpa [initDetState] using this
  refine ⟨by norm_num [defaultDetConfig], ?_, allSame_replicate 10 0, by norm_num, ?_⟩
  · rw [hsplit, runDetect_append, hfill]
    have := runDetect_preds_replicate constModel65 0 (fun w hw => rfl)
      (List.replicate 10 []) ⟨List.replicate 29 [], [], []⟩ 0 (Or.inl (by simp)) rfl
    simpa using this
  · rw [hsplit, runDetect_append, hfill]
    apply runDetect_sentence_stable defaultDetConfig constModel65 ?_ (List.replicate 10 [])
      ⟨List.replicate 29 [], [], []⟩ (by simp)
    intro w hw
    show ([(13 : ℚ) / 20].getD (argmaxIdx [(13 : ℚ) / 20]) 0) ≤ defaultDetConfig.threshold
    norm_num [argmaxIdx, argmaxAux, defaultDetConfig]

/-- C7 (amended): after every processed frame the feature window holds at
most `W = 30` entries and the stabilized sentence at most 5 labels, and each
frame appends at most one raw prediction; the raw prediction list itself is
never trimmed (see the counterexample), only its last 10 entries are read. -/
theorem detector_capacity_amended :
    (∀ (model : List (List ℚ) → List ℚ) (frames : List (List ℚ)),
      (runDetect defaultDetConfig model initDetState frames).sequence.length ≤ 30 ∧
      (runDetect defaultDetConfig model initDetState frames).sentence.length ≤ 5) ∧
    (∀ (cfg : DetConfig) (model : List (List ℚ) → List ℚ) (st : DetState) (kp : List ℚ),
      (detectAction cfg model st kp).1.predictions.length ≤ st.predictions.length + 1) := by
  constructor
  · intro model frames
    exact ⟨runDetect_seq_le defaultDetConfig model frames initDetState (by simp [initDetState]),
      runDetect_sentence_le defaultDetConfig model frames initDetState (by simp [initDetState])⟩
  · intro cfg model st kp
    exact detectAction_preds_le cfg model st kp

/-- Counterexample to C7 as stated: after 40 frames of a fresh session the
raw prediction list holds 11 entries — the code never evicts from
`self.predictions`, so the 10-entry capacity claimed for the recent
prediction buffer does not hold of the stored state. -/
theorem detector_predictions_unbounded_cx :
    (runDetect defaultDetConfig constModel65 initDetState
      (List.replicate 40 [])).predictions.length = 11 := by
  have hsplit : (List.replicate 40 ([] : List ℚ)) =
      List.replicate 29 [] ++ List.replicate 11 [] := by
    rw [← List.replicate_add]
  have hfill : runDetect defaultDetConfig constModel65 initDetState (List.replicate 29 []) =
      ⟨List.replicate 29 [], [], []⟩ := by
    have := runDetect_fill defaultDetConfig constModel65 (List.replicate 29 []) initDetState
      (by simp [initDetState, defaultDetConfig])
    simpa [initDetState] using this
  rw [hsplit, runDetect_append, hfill]
  have hpr := runDetect_preds_replicate constModel65 0 (fun w hw => rfl)
    (List.replicate 11 []) ⟨List.replicate 29 [], [], []⟩ 0 (Or.inl (by simp)) rfl
  rw [hpr]
  simp

/-- C8: starting from a fresh session, 29 window-filling frames followed by
20 classified frames that all raw-classify to the same class with top
probability above the threshold leave the stabilized sentence containing that
label exactly once — the 10th identical prediction appends it and the
de-duplication suppresses every later repeat. -/
theorem stabilized_sentence_single (model : List (List ℚ) → List ℚ) (c : ℕ)
    (frames : List (List ℚ)) (hlen : frames.length = 49)
    (hm : ∀ w : List (List ℚ), w.length = 30 →
      argmaxIdx (model w) = c ∧ defaultDetConfig.threshold < (model w).getD c 0) :
    (runDetect defaultDetConfig model initDetState frames).sentence = [actionLabel c] ∧
    (runDetect defaultDetConfig model initDetState frames).sentence.count (actionLabel c) = 1 := by
  have hsplit : frames = frames.take 29 ++ frames.drop 29 := (List.take_append_drop 29 frames).symm
  have htk : (frames.take 29).length = 29 := by
    rw [List.length_take, hlen]
    omega
  have hdr : (frames.drop 29).length = 20 := by rw [List.length_drop, hlen]
  have hfill : runDetect defaultDetConfig model initDetState (frames.take 29) =
      ⟨frames.take 29, [], []⟩ := by
    have := runDetect_fill defaultDetConfig model (frames.take 29) initDetState
      (by simp [initDetState, defaultDetConfig, htk])
    simpa [initDetState] using this
  have hsent : (runDetect defaultDetConfig model initDetState frames).sentence =
      [actionLabel c] := by
    rw [hsplit, runDetect_append, hfill]
    have := runDetect_classify model c hm (frames.drop 29) ⟨frames.take 29, [], []⟩ 0
      (Or.inl htk) rfl (by norm_num)
    rw [hdr] at this
    simpa using this
  exact ⟨hsent, by rw [hsent]; simp⟩

/-- Witness for C8 with a concrete constant classifier of confidence 0.8. -/
theorem stabilized_sentence_single_witness :
    (runDetect defaultDetConfig constModel80 initDetState
      (List.replicate 49 [])).sentence = [actionLabel 0] ∧
    (runDetect defaultDetConfig constModel80 initDetState
      (List.replicate 49 [])).sentence.count (actionLabel 0) = 1 :=
  stabilized_sentence_single constModel80 0 (List.replicate 49 []) (by simp)
    (fun w hw => ⟨rfl, by norm_num [constModel80, defaultDetConfig]⟩)

/-! ### Report synthesis and chunk recording -/

theorem wordCountStr_nil : wordCountStr "" = 0 := rfl

theorem pyStrip_nil : pyStrip "" = "" := rfl

theorem synthGroup_none_iff (questions : List (ℤ × String)) (qn : ℤ) (items : List Chunk) :
    synthGroup questions qn items = none ↔
      ((if groupWords items = 0 then wordCountStr (groupText items) else groupWords items) < 5 ∧
        groupDuration items < 1 ∧ (pyStrip (groupText items)).length < 12) := by
  simp only [synthGroup]
  by_cases hc : ((if groupWords items = 0 then wordCountStr (groupText items)
      else groupWords items) < 5 ∧ groupDuration items < 1 ∧
      (pyStrip (groupText items)).length < 12)
  · rw [if_pos hc]
    exact iff_of_true rfl hc
  · rw [if_neg hc]
    exact iff_of_false (by simp) hc

theorem groupText_eq_empty {items : List Chunk}
    (h0 : ∀ ch ∈ items, ch.words = 0 → ch.text = "")
    (hW : groupWords items = 0) : groupText items = "" := by
  have hall : ∀ ch ∈ items, ch.text = "" := by
    intro ch hch
    apply h0 ch hch
    exact List.sum_eq_zero_iff.mp hW ch.words (List.mem_map_of_mem _ hch)
  have hfilter : items.filter (fun c => c.text ≠ "") = [] := by
    rw [List.filter_eq_nil_iff]
    intro a ha
    simp [hall a ha]
  unfold groupText
  rw [hfilter]
  rfl

/-- C4: a question group's synthesized entry is dropped exactly when its
summed word count is < 5, its summed duration is < 1.0 and its trimmed
concatenated text is shorter than 12 characters (for recorded chunks, whose
word counts are derived from their texts, the zero-sum re-split fallback
coincides with the sum); concretely, a group with words 3, duration 0.4 and
text "ok yeah" is dropped while one with words 5 and the same duration and
text is retained. -/
theorem ghost_filter_exact :
    (∀ (questions : List (ℤ × String)) (qn : ℤ) (items : List Chunk),
      (∀ ch ∈ items, ch.words = 0 → ch.text = "") →
      (synthGroup questions qn items = none ↔
        (groupWords items < 5 ∧ groupDuration items < 1 ∧
          (pyStrip (groupText items)).length < 12))) ∧
    synthGroup [] 1 [ghostChunk3] = none ∧
    (synthGroup [] 1 [ghostChunk5]).isSome = true := by
  refine ⟨?_, ?_, ?_⟩
  · intro questions qn items h0
    rw [synthGroup_none_iff]
    have heff : (if groupWords items = 0 then wordCountStr (groupText items)
        else groupWords items) < 5 ↔ groupWords items < 5 := by
      by_cases hW : groupWords items = 0
      · rw [if_pos hW, hW, groupText_eq_empty h0 hW, wordCountStr_nil]
      · rw [if_neg hW]
    exact and_congr heff Iff.rfl
  · apply (synthGroup_none_iff _ _ _).mpr
    have h3 : groupWords [ghostChunk3] = 3 := by decide
    refine ⟨?_, ?_, ?_⟩
    · rw [if_neg (by rw [h3]; norm_num), h3]
      norm_num
    · show ([ghostChunk3].map (fun c => c.duration)).sum < 1
      norm_num [ghostChunk3]
    · decide
  · rw [Option.isSome_iff_ne_none]
    intro hnone
    have h := (synthGroup_none_iff _ _ _).mp hnone
    have h5 : groupWords [ghostChunk5] = 5 := by decide
    rw [if_neg (by rw [h5]; norm_num), h5] at h
    exact absurd h.1 (by norm_num)

/-- Witness for C4 at the empty group. -/
theorem ghost_filter_exact_witness :
    synthGroup [] 1 [] = none ↔
      (groupWords [] < 5 ∧ groupDuration [] < 1 ∧ (pyStrip (groupText [])).length < 12) :=
  ghost_filter_exact.1 [] 1 [] (by simp)

theorem computeReport_speechScore (s : SessionSummary) (posture : List (String × ℕ)) :
    (computeReport s posture).speechScore =
      pyInt (min 100 (max 0 (if avgOrDefault s.clarities 0 = 0 then 70
        else avgOrDefault s.clarities 0))) := rfl

theorem computeReport_postureScore (s : SessionSummary) (posture : List (String × ℕ)) :
    (computeReport s posture).postureScore = 78 := rfl

theorem computeReport_overallScore (s : SessionSummary) (posture : List (String × ℕ)) :
    (computeReport s posture).overallScore =
      pyInt ((((computeReport s posture).speechScore : ℚ) + 78) / 2) := rfl

theorem computeReport_responseTime (s : SessionSummary) (posture : List (String × ℕ)) :
    (computeReport s posture).responseTimeScore =
      (if speakingRateLabel (avgOrDefault s.rates 0) = "Good pace" then 80
       else if speakingRateLabel (avgOrDefault s.rates 0) = "Too slow" then 40 else 60) := rfl

theorem computeReport_confidenceScore (s : SessionSummary) (posture : List (String × ℕ)) :
    (computeReport s posture).confidenceScore =
      pyRound (avgOrDefault s.confidences (1 / 2) * 100) := rfl

/-- C5 (amended): in the synthesized report `speech_score` is the truncated
clamp of the average clarity with 70 substituted when that average is 0
(Python `avg_clarity or 70`); `response_time_score` is 40/80/60 by the
average-rate band; `confidence_score` is `round(avg_conf * 100)`;
`body_language_score` is always the fixed baseline 78 — even when a posture
distribution is present it is not recalculated (see the counterexample) —
and `overall_score` is the truncation (not the rounding) of the average of
the speech and body-language scores. -/
theorem report_scores_amended (s : SessionSummary) (posture : List (String × ℕ)) :
    (computeReport s posture).speechScore =
      pyInt (min 100 (max 0 (if avgOrDefault s.clarities 0 = 0 then 70
        else avgOrDefault s.clarities 0))) ∧
    (computeReport s posture).postureScore = 78 ∧
    (computeReport s posture).overallScore =
      pyInt ((((computeReport s posture).speechScore : ℚ) + 78) / 2) ∧
    (computeReport s posture).responseTimeScore =
      (if avgOrDefault s.rates 0 ≤ 110 then 40
       else if avgOrDefault s.rates 0 ≤ 160 then 80 else 60) ∧
    (computeReport s posture).confidenceScore =
      pyRound (avgOrDefault s.confidences (1 / 2) * 100) ∧
    (computeReport s posture).contentScore = 70 := by
  refine ⟨rfl, rfl, rfl, ?_, rfl, rfl⟩
  rw [computeReport_responseTime]
  by_cases h1 : avgOrDefault s.rates 0 ≤ 110
  · simp [speakingRateLabel, h1]
  · by_cases h2 : avgOrDefault s.rates 0 ≤ 160 <;> simp [speakingRateLabel, h1, h2]

/-- Counterexample to C5 as stated: with a posture distribution present the
body-language score is still the fixed 78 (identical for an all-Slouching
and an all-Good-Posture tally, so it is not derived from the tally); the
overall score is the truncation 77 of the average (77 + 78) / 2 = 77.5 while
`round` of that average is 78; and a session whose average clarity is 0 gets
speech score 70, not the clamp of 0. -/
theorem report_scores_cx :
    (computeReport cxSummary77 [("Slouching", 100)]).postureScore = 78 ∧
    (computeReport cxSummary77 [("Good Posture", 100)]).postureScore = 78 ∧
    (computeReport cxSummary77 [("Slouching", 100)]).speechScore = 77 ∧
    (computeReport cxSummary77 [("Slouching", 100)]).overallScore = 77 ∧
    pyRound (((77 : ℚ) + 78) / 2) = 78 ∧
    (computeReport cxSummaryZeroClarity []).speechScore = 70 ∧
    pyInt (min 100 (max 0 (0 : ℚ))) = 0 := by
  have havg : avgOrDefault cxSummary77.clarities 0 = 77 := by
    norm_num [avgOrDefault, cxSummary77]
  have hs : (computeReport cxSummary77 [("Slouching", 100)]).speechScore = 77 := by
    rw [computeReport_speechScore, havg]
    norm_num [pyInt]
  refine ⟨rfl, rfl, hs, ?_, ?_, ?_, ?_⟩
  · rw [computeReport_overallScore, hs]
    have : ((77 : ℤ) : ℚ) + 78 = 155 := by norm_num
    rw [this]
    norm_num [pyInt]
  · have hfloor : ⌊((77 : ℚ) + 78) / 2⌋ = 77 := by norm_num
    simp only [pyRound, hfloor]
    norm_num
  · have havg0 : avgOrDefault cxSummaryZeroClarity.clarities 0 = 0 := by
      norm_num [avgOrDefault, cxSummaryZeroClarity, cxSummary77]
    rw [computeReport_speechScore, havg0]
    norm_num [pyInt]
  · norm_num [pyInt]

/-- C9: the report handler does not mutate the module stores (all reads use
`.get`, never defaultdict item access), so invoking it twice for the same
session with no new chunks or frames in between returns the unchanged store
state and an identical report — every aggregate number included. -/
theorem report_idempotent (st : Stores) (sid : String) :
    (generateFeedbackReport st sid).2 = st ∧
    (generateFeedbackReport ((generateFeedbackReport st sid).2) sid).1 =
      (generateFeedbackReport st sid).1 := by
  have h2 : (generateFeedbackReport st sid).2 = st := by
    simp only [generateFeedbackReport]
    split_ifs <;> rfl
  exact ⟨h2, by rw [h2]⟩

theorem analyze_level_ne_noSpeech (t : String) (d : ℚ) :
    (analyzeSpeechPerformance t d).performanceLevel ≠ "No speech" := by
  have h : (analyzeSpeechPerformance t d).performanceLevel =
      (if 80 ≤ (analyzeSpeechPerformance t d).finalScore then "Excellent"
       else if 65 ≤ (analyzeSpeechPerformance t d).finalScore then "Good"
       else if 50 ≤ (analyzeSpeechPerformance t d).finalScore then "Fair"
       else "Needs Improvement") := rfl
  rw [h]
  split_ifs <;> decide

/-- C6 (amended): an empty or failed transcription never raises — the chunk
analyzer returns the zero-information no-speech result (all counts 0,
sentinel level "No speech" which the scoring formula never produces) with
confidence 1.0 both when the transcriber cleanly returned no speech and when
the transcribe step itself raised (its error is swallowed into an empty
transcription); an exception inside the analysis body falls back to the mock
result with confidence 0.5; confidence 0.0 appears only in the router's
`ffmpeg_decode_failed` response, produced when the decode fails and the
raw-bytes fallback analysis also raises, and that path records no chunk. -/
theorem chunk_degraded_amended :
    (∀ len : ℕ, analyzeAudioChunk true .raiseErr len false = noSpeechChunkResult) ∧
    (∀ (s : String) (len : ℕ), pyStrip s = "" →
      analyzeAudioChunk true (.text s) len false = noSpeechChunkResult) ∧
    noSpeechChunkResult.confidence = 1 ∧
    noSpeechChunkResult.performanceLevel = "No speech" ∧
    noSpeechChunkResult.fillerCount = 0 ∧ noSpeechChunkResult.wordCount = 0 ∧
    (∀ (t : String) (d : ℚ), (analyzeSpeechPerformance t d).performanceLevel ≠ "No speech") ∧
    (∀ (outcome : TranscribeOutcome) (len : ℕ),
      analyzeAudioChunk true outcome len true = mockChunkResult) ∧
    mockChunkResult.confidence = 1 / 2 ∧
    (∀ (st : Stores) (sid : String) (qn : Option ℤ) (qt : Option String) (ts : String)
      (cd : ℚ) (outcome : TranscribeOutcome) (len : ℕ) (useReal bodyErr : Bool),
      analyzeSpeechFile st sid qn qt ts false cd outcome len useReal bodyErr true =
        ({ ok := false, errorKind := some "ffmpeg_decode_failed", fillerCount := 0,
           confidence := 0, duration := 0 }, st)) := by
  refine ⟨fun len => rfl, ?_, rfl, rfl, rfl, rfl, analyze_level_ne_noSpeech, fun o len => rfl,
    rfl, fun st sid qn qt ts cd o len u b => rfl⟩
  intro s len h
  simp [analyzeAudioChunk, transcribeAudioData, h]

/-- Witness for the amended C6: a whitespace-only transcription yields the
no-speech result. -/
theorem chunk_degraded_amended_witness :
    analyzeAudioChunk true (.text "  ") 0 false = noSpeechChunkResult :=
  chunk_degraded_amended.2.1 "  " 0 rfl

/-- Witness for the amended C5 at a concrete session summary. -/
theorem report_scores_amended_witness :
    (computeReport cxSummary77 []).speechScore =
      pyInt (min 100 (max 0 (if avgOrDefault cxSummary77.clarities 0 = 0 then 70
        else avgOrDefault cxSummary77.clarities 0))) ∧
    (computeReport cxSummary77 []).postureScore = 78 ∧
    (computeReport cxSummary77 []).overallScore =
      pyInt ((((computeReport cxSummary77 []).speechScore : ℚ) + 78) / 2) ∧
    (computeReport cxSummary77 []).responseTimeScore =
      (if avgOrDefault cxSummary77.rates 0 ≤ 110 then 40
       else if avgOrDefault cxSummary77.rates 0 ≤ 160 then 80 else 60) ∧
    (computeReport cxSummary77 []).confidenceScore =
      pyRound (avgOrDefault cxSummary77.confidences (1 / 2) * 100) ∧
    (computeReport cxSummary77 []).contentScore = 70 :=
  report_scores_amended cxSummary77 []

/-- Witness for C9 at a concrete store state. -/
theorem report_idempotent_witness :
    (generateFeedbackReport ⟨[], [], []⟩ "s1").2 = (⟨[], [], []⟩ : Stores) ∧
    (generateFeedbackReport ((generateFeedbackReport ⟨[], [], []⟩ "s1").2) "s1").1 =
      (generateFeedbackReport ⟨[], [], []⟩ "s1").1 :=
  report_idempotent ⟨[], [], []⟩ "s1"

/-- Witness for the amended C7 at a concrete model and frame list. -/
theorem detector_capacity_amended_witness :
    (runDetect defaultDetConfig constModel65 initDetState []).sequence.length ≤ 30 ∧
    (runDetect defaultDetConfig constModel65 initDetState []).sentence.length ≤ 5 :=
  detector_capacity_amended.1 constModel65 []

/-- Counterexample to C6 as stated: when the transcribe step itself errors,
the recorded chunk result has confidence 1.0, not the claimed 0.0, because
`transcribe_audio_data` swallows the error into an empty transcription which
the analyzer treats as cleanly detected silence. -/
theorem chunk_error_confidence_cx :
    (analyzeAudioChunk true .raiseErr 32000 false).confidence = 1 ∧
    (analyzeAudioChunk true .raiseErr 32000 false).confidence ≠ 0 := by
  constructor
  · rfl
  · show (1 : ℚ) ≠ 0
    norm_num

end PrepWise
